/-
Verification of the HIT_137_Assignment3 desktop application core:
the cross-cutting decorators (src/gui/decorators.py), the lazy-loading
model-adapter base (src/models/base_model.py) and its two concrete
adapters (src/models/image_caption.py, src/models/text_to_image.py),
the file handler (src/utils/file_handler.py), and the main window's
background dispatch pipeline (src/gui/main_window.py).

Python values, exceptions and side effects are shallowly embedded:
an operation takes its positional-argument list and returns either a
value or a raised exception, together with the list of lines it printed
(the only observable side effect of the decorators).  Real-time
measurements (time.time() differences) are modelled by an
environment-supplied duration, and the backend ML libraries by
parameters giving the outcome of backend initialisation and inference.
-/

import Mathlib

set_option maxRecDepth 2000

namespace Assignment3

/-- A Python runtime value, as far as the decorators and the GUI glue
inspect it: `None`, a string, or some other object (model instances,
PIL images, `self` receivers), which is always truthy. -/
inductive PyVal where
  | none
  | str (s : String)
  | obj (tag : String)
  deriving Repr, DecidableEq

/-- Python truthiness restricted to the values above: `None` is falsy,
a string is falsy iff empty, other objects are truthy. -/
def PyVal.truthy : PyVal → Bool
  | .none => false
  | .str s => s ≠ ""
  | .obj _ => true

/-- Whether the value is a `str` instance (`isinstance(user_input, str)`). -/
def PyVal.isStr : PyVal → Bool
  | .str _ => true
  | _ => false

/-- `str.strip()` on the embedded strings: remove leading and trailing
whitespace characters (Python also strips some Unicode whitespace; the
inputs modelled here are ASCII). -/
def pyStrip (s : String) : String :=
  ⟨(((s.data.dropWhile Char.isWhitespace).reverse).dropWhile
      Char.isWhitespace).reverse⟩

/-- The exceptions the embedded code raises. -/
inductive PyErr where
  | valueError (msg : String)
  | runtimeError (msg : String)
  | fileNotFoundError (msg : String)
  deriving Repr, DecidableEq

/-- `str(e)`: the message carried by the exception. -/
def PyErr.message : PyErr → String
  | .valueError m => m
  | .runtimeError m => m
  | .fileNotFoundError m => m

/-- An embedded Python operation: from its positional-argument list it
either returns a value or raises, and prints a list of lines while
doing so (prints made before a raise are kept, as on a real stdout). -/
def Op : Type := List PyVal → Except PyErr PyVal × List String

/-! ## src/gui/decorators.py -/

/-- The blank test of `validate_input`'s wrapper, verbatim from
`decorators.py` line 15:
`not user_input or (isinstance(user_input, str) and user_input.strip() == "")`. -/
def isBlank (u : PyVal) : Bool :=
  !u.truthy || (u.isStr && pyStrip (match u with | .str s => s | _ => "") == "")

/-- `validate_input` (decorators.py lines 8-18).  The wrapper looks at
`args[1]` only when more than one positional argument was passed
(`args[0]` is usually `self`); a blank `args[1]` raises
`ValueError("Input cannot be empty")` before the wrapped function runs,
otherwise the wrapped function is invoked unchanged. -/
def validate_input (func : Op) : Op := fun args =>
  if h : 1 < args.length then
    if isBlank (args.get ⟨1, h⟩) then
      (.error (.valueError "Input cannot be empty"), [])
    else func args
  else func args

/-- `log_operation` (decorators.py lines 21-36): prints a start line,
runs the wrapped function, prints a completion line and returns the
result, or prints a failure line and re-raises.  Wall-clock timestamps
and durations are omitted from the modelled lines. -/
def log_operation (name : String) (func : Op) : Op := fun args =>
  let startLine := "[LOG] Starting " ++ name
  match func args with
  | (.ok v, log) =>
      (.ok v, startLine :: log ++ ["[LOG] " ++ name ++ " completed"])
  | (.error e, log) =>
      (.error e, startLine :: log ++ ["[LOG] " ++ name ++ " failed: " ++ e.message])

/-- `str(...)` repr of an embedded value, used to build cache keys. -/
def pyRepr : PyVal → String
  | .none => "None"
  | .str s => "'" ++ s ++ "'"
  | .obj t => "<" ++ t ++ ">"

/-- `str(args)` for a positional-argument tuple. -/
def serializeArgs (args : List PyVal) : String :=
  "(" ++ String.intercalate ", " (args.map pyRepr) ++
    (if args.length == 1 then ",)" else ")")

/-- A deterministic model of Python's string hash (any fixed function
of the string works for the cache: within one process, equal strings
hash equal). -/
def pyHash (s : String) : Nat :=
  s.foldl (fun h c => (h * 31 + c.toNat) % (2 ^ 64)) 7

/-- The cache key built by `cache_result`'s wrapper (decorators.py
line 46): `f"{func.__name__}_{hash(str(args) + str(kwargs))}"`; the
modelled call sites pass no keyword arguments, so `str(kwargs)` is
`"{}"`. -/
def cacheKey (name : String) (args : List PyVal) : String :=
  name ++ "_" ++ toString (pyHash (serializeArgs args ++ "\x7b\x7d"))

/-- The per-decoration cache dictionary. -/
def Cache : Type := List (String × PyVal)

/-- Dictionary lookup (`cache_key in cache` / `cache[cache_key]`). -/
def Cache.find : Cache → String → Option PyVal
  | [], _ => Option.none
  | (k, v) :: rest, key => if k == key then some v else Cache.find rest key

/-- Dictionary store (`cache[cache_key] = result`). -/
def Cache.store (c : Cache) (key : String) (v : PyVal) : Cache :=
  (key, v) :: c

/-- `cache_result` (decorators.py lines 39-57).  The wrapper keeps a
dictionary keyed by function name and hashed stringified arguments; on
a hit it prints the cache-hit line and returns the stored value without
running the wrapped function, on a miss it runs the function, stores a
successful result and returns it (a raise propagates and caches
nothing). -/
def cache_result (name : String) (func : Op) (cache : Cache)
    (args : List PyVal) : (Except PyErr PyVal × List String) × Cache :=
  let key := cacheKey name args
  match cache.find key with
  | some v =>
      ((.ok v, ["[CACHE] Returning cached result for " ++ name]), cache)
  | Option.none =>
      match func args with
      | (.ok v, log) =>
          ((.ok v, log ++ ["[CACHE] Cached result for " ++ name]),
            cache.store key v)
      | (.error e, log) => ((.error e, log), cache)

/-- `error_handler(error_message)` (decorators.py lines 60-72): runs
the wrapped function inside `try/except Exception`; a raise is turned
into a printed `[ERROR]` line and a returned `None` — the wrapped call
never raises. -/
def error_handler (error_message : String) (func : Op) : Op := fun args =>
  match func args with
  | (.ok v, log) => (.ok v, log)
  | (.error e, log) =>
      (.ok PyVal.none, log ++ ["[ERROR] " ++ error_message ++ ": " ++ e.message])

/-! ## src/models/base_model.py -/

/-- The fields of `BaseAIModel` that `_ensure_loaded` governs, together
with an opaque sub-state `α` standing for whatever the concrete
adapter's `_load_model` mutates (processor, pipeline and model handles).
`_is_loaded` and `_load_time` are assigned nowhere in the repository
except inside `_ensure_loaded`. -/
structure ModelState (α : Type) where
  modelName : String
  sub : α
  isLoaded : Bool
  loadTime : Option Nat
  deriving Repr, DecidableEq

/-- `BaseAIModel.__init__` (base_model.py lines 11-16): the adapter
starts unloaded, with no recorded load time. -/
def BaseAIModel.init (name : String) (sub0 : α) : ModelState α :=
  { modelName := name, sub := sub0, isLoaded := false, loadTime := Option.none }

/-- A concrete `_load_model`: it may mutate the adapter's sub-state and
either return normally or raise. -/
def Loader (α : Type) : Type := α → α × Option PyErr

/-- `BaseAIModel._ensure_loaded` (base_model.py lines 43-51), given the
subclass loader and the wall-clock duration `elapsed` the load would
measure.  Returns the adapter state after the call, the exception the
call raises (if any), and whether `_load_model` was invoked.  When the
flag is already set, nothing runs; when the loader raises, the raise
propagates before `_load_time` and `_is_loaded` are assigned, so both
keep their old values. -/
def ensure_loaded (st : ModelState α) (loader : Loader α) (elapsed : Nat) :
    ModelState α × Option PyErr × Bool :=
  if st.isLoaded then (st, Option.none, false)
  else
    match loader st.sub with
    | (sub', some e) => ({ st with sub := sub' }, some e, true)
    | (sub', Option.none) =>
        ({ st with sub := sub', isLoaded := true, loadTime := some elapsed },
          Option.none, true)

/-- The invariant claimed of every adapter instance: the loaded flag is
set exactly when a load duration has been recorded. -/
def loadedInvariant (st : ModelState α) : Prop :=
  st.isLoaded = st.loadTime.isSome

/-! ## src/models/image_caption.py and src/models/text_to_image.py -/

/-- `ImageCaptionModel._load_model` (image_caption.py lines 20-32):
the BLIP backend initialisation (`from_pretrained` plus device move) is
a parameter; any exception it raises is replaced by
`RuntimeError(f"Failed to load image captioning model: {str(e)}")`. -/
def imageCaption_load_model (backendInit : Except String α) : Except PyErr α :=
  match backendInit with
  | .ok b => .ok b
  | .error cause =>
      .error (.runtimeError ("Failed to load image captioning model: " ++ cause))

/-- `TextToImageModel._load_model` (text_to_image.py lines 19-36): same
shape over the Stable Diffusion pipeline initialisation. -/
def textToImage_load_model (backendInit : Except String α) : Except PyErr α :=
  match backendInit with
  | .ok b => .ok b
  | .error cause =>
      .error (.runtimeError ("Failed to load text-to-image model: " ++ cause))

/-- The undecorated body of `ImageCaptionModel.process`
(image_caption.py lines 37-53) on a first call: `_ensure_loaded()`
first — it prints the loading line, and a load failure raises out of
the body before the loaded line is printed — then BLIP inference,
whose outcome is the parameter `infer`. -/
def captionProcessBody (backendInit : Except String Unit)
    (infer : Except PyErr String) : Op := fun _args =>
  let loadLine := "Loading Salesforce/blip-image-captioning-base..."
  match imageCaption_load_model backendInit with
  | .error e => (.error e, [loadLine])
  | .ok _ =>
      match infer with
      | .ok caption => (.ok (.str caption), [loadLine, "Model loaded"])
      | .error e => (.error e, [loadLine, "Model loaded"])

/-- `ImageCaptionModel.process` as decorated in the source
(image_caption.py lines 34-37): `validate_input` outermost, then
`log_operation`, then `error_handler("Image captioning failed")`
innermost around the body. -/
def imageCaption_process (backendInit : Except String Unit)
    (infer : Except PyErr String) : Op :=
  validate_input (log_operation "process"
    (error_handler "Image captioning failed" (captionProcessBody backendInit infer)))

/-- The undecorated body of `TextToImageModel.process`
(text_to_image.py lines 41-55) on a first call. -/
def t2iProcessBody (backendInit : Except String Unit)
    (infer : Except PyErr PyVal) : Op := fun _args =>
  let loadLine := "Loading runwayml/stable-diffusion-v1-5..."
  match textToImage_load_model backendInit with
  | .error e => (.error e, [loadLine])
  | .ok _ =>
      match infer with
      | .ok img => (.ok img, [loadLine, "Model loaded"])
      | .error e => (.error e, [loadLine, "Model loaded"])

/-- `TextToImageModel.process` as decorated in the source
(text_to_image.py lines 38-41): `validate_input`, then `log_operation`,
then `error_handler("Text-to-image generation failed")` innermost. -/
def textToImage_process (backendInit : Except String Unit)
    (infer : Except PyErr PyVal) : Op :=
  validate_input (log_operation "process"
    (error_handler "Text-to-image generation failed" (t2iProcessBody backendInit infer)))

/-! ## src/utils/file_handler.py -/

/-- What `FileHandler.load_image` observes about its `file_path`
argument: whether `file_path.exists()`, the `file_path.suffix`, and the
string form used in messages. -/
structure PathModel where
  pathStr : String
  exist : Bool
  suffix : String
  deriving Repr, DecidableEq

/-- A decoded PIL image, as far as `load_image` inspects it: its mode
string (`"RGB"`, `"RGBA"`, `"L"`, `"P"`, ...). -/
structure PILImage where
  mode : String
  deriving Repr, DecidableEq

/-- `Image.convert(target)`: returns the image in the target mode. -/
def PILImage.convert (_img : PILImage) (target : String) : PILImage :=
  { mode := target }

/-- `FileHandler._supported_image_formats` (file_handler.py
lines 29-31). -/
def supported_image_formats : List String :=
  [".jpg", ".jpeg", ".png", ".bmp", ".tiff", ".webp"]

/-- `FileHandler._is_valid_image_file` (file_handler.py lines 46-56):
`file_path.suffix.lower() in self._supported_image_formats`. -/
def is_valid_image_file (p : PathModel) : Bool :=
  supported_image_formats.contains p.suffix.toLower

/-- `FileHandler.load_image` (file_handler.py lines 100-127), with the
outcome of `Image.open` supplied as `decode` (the decoded image, or the
message of the exception the decoder raises).  Missing file:
`FileNotFoundError`; unsupported suffix: `ValueError("Unsupported image
format: ...")`; decode raise: `ValueError("Failed to load image: ...")`;
otherwise the decoded image, converted to `RGB` when its mode is
`RGBA`, `LA` or `P`. -/
def load_image (p : PathModel) (decode : Except String PILImage) :
    Except PyErr PILImage :=
  if !p.exist then
    .error (.fileNotFoundError ("Image file not found: " ++ p.pathStr))
  else if !is_valid_image_file p then
    .error (.valueError ("Unsupported image format: " ++ p.suffix))
  else
    match decode with
    | .ok image =>
        if image.mode ∈ ["RGBA", "LA", "P"] then .ok (image.convert "RGB")
        else .ok image
    | .error e => .error (.valueError ("Failed to load image: " ++ e))

/-! ## src/gui/main_window.py — the background dispatch pipeline -/

/-- The spec's dispatcher phases: `Idle` when no worker is in flight,
`Running` between the trigger and the terminal UI callback. -/
inductive Phase where
  | idle
  | running
  deriving Repr, DecidableEq

/-- What the worker displays on success. -/
inductive ProcResult where
  | image (img : String) (prompt : String)
  | caption (text : String)
  deriving Repr, DecidableEq

/-- The slice of `MainWindow` state the dispatch pipeline reads and
writes: current mode, inputs, trigger/save control state, status line,
output widgets, the dialogs shown so far, how many worker threads were
spawned, and the derived dispatcher phase. -/
structure UIState where
  currentMode : String
  textInput : String
  selectedImagePath : Option String
  processButtonEnabled : Bool
  processButtonText : String
  saveButtonEnabled : Bool
  status : String
  displayedImage : Option String
  textOutput : String
  dialogs : List (String × String)
  threadsSpawned : Nat
  phase : Phase
  deriving Repr, DecidableEq

/-- `MainWindow._start_processing_thread` (main_window.py
lines 324-332): disables the trigger and save controls, shows the busy
status and spawns the worker thread (phase becomes `Running`). -/
def start_processing_thread (st : UIState) : UIState :=
  { st with
      processButtonEnabled := false
      processButtonText := "Processing..."
      saveButtonEnabled := false
      status := "Processing..."
      threadsSpawned := st.threadsSpawned + 1
      phase := .running }

/-- `MainWindow._display_image_result` (main_window.py lines 366-369). -/
def display_image_result (st : UIState) (img prompt : String) : UIState :=
  { st with
      displayedImage := some img
      textOutput := "Generated image from prompt: '" ++ prompt ++ "'" }

/-- `MainWindow._display_text_result` (main_window.py lines 371-373). -/
def display_text_result (st : UIState) (caption : String) : UIState :=
  { st with textOutput := caption }

/-- `MainWindow._processing_complete` (main_window.py lines 375-379):
restores the status, re-enables the trigger and save controls; the
worker has finished, so the dispatcher is `Idle` again. -/
def processing_complete (st : UIState) : UIState :=
  { st with
      status := "Ready"
      processButtonEnabled := true
      processButtonText := "Generate"
      saveButtonEnabled := true
      phase := .idle }

/-- `MainWindow._processing_error` (main_window.py lines 381-385):
shows the error dialog, restores the status and re-enables the trigger
control; the worker has finished, so the dispatcher is `Idle` again. -/
def processing_error (st : UIState) (error_msg : String) : UIState :=
  { st with
      dialogs := st.dialogs ++ [("Error", error_msg)]
      status := "Ready"
      processButtonEnabled := true
      processButtonText := "Generate"
      phase := .idle }

/-- `MainWindow._process_in_background` (main_window.py lines 334-364),
with the outcome of the mode's model call supplied as `outcome` (the
produced result, or the message of the exception the body raises).  On
success the worker schedules the display callback then
`_processing_complete`; on a raise it schedules `_processing_error`. -/
def process_in_background (st : UIState) (outcome : Except String ProcResult) :
    UIState :=
  match outcome with
  | .ok (.image img prompt) =>
      processing_complete (display_image_result st img prompt)
  | .ok (.caption text) =>
      processing_complete (display_text_result st text)
  | .error e => processing_error st e

/-- The inner validation of `MainWindow._process_input` (main_window.py
lines 305-322): in text mode a blank prompt, and in caption mode a
missing selected image, raise a `ValueError` that the method's own
`try/except` turns into an error dialog and an early return; otherwise
`_start_processing_thread` runs.  (The `@validate_input` decorator on
this method sees only the single `self` argument and checks nothing,
and `@error_handler` has nothing to catch.) -/
def process_input (st : UIState) : UIState :=
  if st.currentMode = "text_to_image" then
    let text_prompt := pyStrip st.textInput
    if text_prompt = "" then
      { st with dialogs := st.dialogs ++ [("Error", "Please enter a text prompt")] }
    else start_processing_thread st
  else if st.currentMode = "image_to_caption" then
    match st.selectedImagePath with
    | Option.none =>
        { st with dialogs := st.dialogs ++ [("Error", "Please select an image file")] }
    | some _ => start_processing_thread st
  else start_processing_thread st

/-! ## Theorems -/

/-- C3: for every operation wrapped by `validate_input` and every call
passing a blank primary argument (`None`, the empty string, or a
whitespace-only string) as `args[1]`, the wrapper raises
`ValueError("Input cannot be empty")`; the output — exception and
printed lines alike — is the same for every underlying operation and
contains no trace of it, so the underlying operation is observably not
invoked. -/
theorem C3_validate_rejects_blank (func : Op) (args : List PyVal)
    (h : 1 < args.length)
    (hblank : args.get ⟨1, h⟩ = PyVal.none ∨
      ∃ s, args.get ⟨1, h⟩ = PyVal.str s ∧ pyStrip s = "") :
    validate_input func args =
      (.error (.valueError "Input cannot be empty"), []) := by
  have hb : isBlank (args.get ⟨1, h⟩) = true := by
    rcases hblank with h1 | ⟨s, hs, ht⟩
    · rw [h1]; rfl
    · rw [hs]
      simp [isBlank, PyVal.isStr, ht]
  unfold validate_input
  rw [dif_pos h, if_pos hb]

/-- Witness for C3 at a concrete blank input: the trigger argument is a
whitespace-only string and the wrapped operation would observably print
and return, yet the wrapper rejects with an empty log. -/
theorem C3_witness :
    validate_input (fun _ => (.ok (.str "ran"), ["side effect"]))
        [.obj "self", .str "   "] =
      (.error (.valueError "Input cannot be empty"), []) :=
  C3_validate_rejects_blank _ _ (by decide)
    (Or.inr ⟨"   ", by decide, by decide⟩)

/-- C9: `validate_input`'s wrapper inspects only `args[1]`; a call that
passes at most one positional argument — such as the main window's
trigger handler `_process_input`, invoked with only its `self`
receiver — is forwarded to the underlying operation unchanged, with no
check at all. -/
theorem C9_validate_skips_short_calls (func : Op) (args : List PyVal)
    (h : args.length ≤ 1) :
    validate_input func args = func args := by
  unfold validate_input
  rw [dif_neg (by omega)]

/-- Witness for C9: a receiver-only call runs the underlying operation
unconditionally even though no primary input exists. -/
theorem C9_witness :
    validate_input (fun _ => (.ok (.str "ran"), ["side effect"])) [.obj "self"] =
      (.ok (.str "ran"), ["side effect"]) :=
  C9_validate_skips_short_calls _ _ (by decide)

/-- C5: for every operation wrapped by `error_handler` and every call
on which the underlying operation raises, the wrapped call keeps the
operation's prints, logs the configured message plus the failure
detail, and returns `None` normally instead of propagating the
exception. -/
theorem C5_error_handler_suppresses (error_message : String) (func : Op)
    (args : List PyVal) (e : PyErr) (log : List String)
    (hfail : func args = (.error e, log)) :
    error_handler error_message func args =
      (.ok PyVal.none,
        log ++ ["[ERROR] " ++ error_message ++ ": " ++ e.message]) := by
  unfold error_handler
  rw [hfail]

/-- Witness for C5 at a concrete failing operation. -/
theorem C5_witness :
    error_handler "An error occurred"
        (fun _ => (.error (.valueError "boom"), ["partial print"])) [.obj "self"] =
      (.ok PyVal.none, ["partial print", "[ERROR] An error occurred: boom"]) :=
  C5_error_handler_suppresses "An error occurred" _ [.obj "self"]
    (.valueError "boom") ["partial print"] rfl

/-- A value just stored under a key is found under that key. -/
theorem Cache.find_store (c : Cache) (key : String) (v : PyVal) :
    (c.store key v).find key = some v := by
  simp [Cache.store, Cache.find]

/-- C4: for every cache-wrapped operation and every pair of calls with
identical arguments, if the first call returns a value `v`, the second
call returns that same `v` from the cache, leaves the cache unchanged,
and does not invoke the underlying operation — its output is the
cache-hit line alone, whatever underlying operation `g` stands in the
wrapper. -/
theorem C4_cache_second_call (name : String) (func g : Op)
    (cache cache1 : Cache) (args : List PyVal) (v : PyVal)
    (log1 : List String)
    (hfirst : cache_result name func cache args = ((.ok v, log1), cache1)) :
    cache_result name g cache1 args =
      ((.ok v, ["[CACHE] Returning cached result for " ++ name]), cache1) := by
  simp only [cache_result] at hfirst ⊢
  rcases hcf : cache.find (cacheKey name args) with _ | w
  · rw [hcf] at hfirst
    rcases hf : func args with ⟨r, log⟩
    rw [hf] at hfirst
    rcases r with e | w
    · simp at hfirst
    · simp only [Prod.mk.injEq, Except.ok.injEq] at hfirst
      obtain ⟨⟨hv, -⟩, hc⟩ := hfirst
      subst hv
      rw [← hc, Cache.find_store]
  · rw [hcf] at hfirst
    simp only [Prod.mk.injEq, Except.ok.injEq] at hfirst
    obtain ⟨⟨hv, -⟩, hc⟩ := hfirst
    subst hv
    rw [← hc, hcf]

/-- Witness for C4: a concrete first call through an empty cache stores
the caption; the second call with identical arguments returns it from
the cache even when the stand-in underlying operation would fail. -/
theorem C4_witness :
    cache_result "process_with_conditional_text"
        (fun _ => (.error (.valueError "must not run"), []))
        (Cache.store []
          (cacheKey "process_with_conditional_text" [.obj "self", .obj "img"])
          (.str "a dog"))
        [.obj "self", .obj "img"] =
      ((.ok (.str "a dog"),
          ["[CACHE] Returning cached result for process_with_conditional_text"]),
        Cache.store []
          (cacheKey "process_with_conditional_text" [.obj "self", .obj "img"])
          (.str "a dog")) :=
  C4_cache_second_call "process_with_conditional_text"
    (fun _ => (.ok (.str "a dog"), [])) _ [] _ [.obj "self", .obj "img"]
    (.str "a dog") ["[CACHE] Cached result for process_with_conditional_text"] rfl

/-- C2 counterexample: a call of `ImageCaptionModel.process` on a valid
image during which backend initialisation fails (`"offline"`) returns
`Except.ok PyVal.none` — a normal return of `None` — not
`Except.error` of any exception, so no `ModelLoadError` (nor any other
failure) surfaces to the caller of `process`. -/
theorem C2_counterexample :
    (imageCaption_process (.error "offline") (.ok "a dog")
          [.obj "self", .obj "img"]).1 =
      Except.ok PyVal.none := by
  rfl

/-- Reassociation of string concatenation, used to normalise logged
error lines. -/
theorem string_append_reassoc (a b c : String) :
    a ++ (b ++ c) = a ++ b ++ c :=
  (String.append_assoc a b c).symm

/-- C2 amended: when backend initialisation fails during a call of
`process` (of either adapter), `_load_model` wraps the cause in
`RuntimeError("Failed to load ... model: <cause>")`, but the innermost
`error_handler` decorator on `process` catches it, logs it, and makes
`process` return `None` normally; the wrapped cause reaches only the
printed `[ERROR]` line, never the caller. -/
theorem C2_load_failure_suppressed (cause : String)
    (inferC : Except PyErr String) (inferT : Except PyErr PyVal)
    (args : List PyVal) (h : 1 < args.length)
    (hnb : isBlank (args.get ⟨1, h⟩) = false) :
    imageCaption_process (.error cause) inferC args =
      (.ok PyVal.none,
        ["[LOG] Starting process",
          "Loading Salesforce/blip-image-captioning-base...",
          "[ERROR] Image captioning failed: Failed to load image captioning model: "
            ++ cause,
          "[LOG] process completed"]) ∧
    textToImage_process (.error cause) inferT args =
      (.ok PyVal.none,
        ["[LOG] Starting process",
          "Loading runwayml/stable-diffusion-v1-5...",
          "[ERROR] Text-to-image generation failed: Failed to load text-to-image model: "
            ++ cause,
          "[LOG] process completed"]) := by
  constructor
  · simp only [imageCaption_process, validate_input, log_operation, error_handler,
      captionProcessBody, imageCaption_load_model]
    rw [dif_pos h, if_neg (by rw [hnb]; exact Bool.false_ne_true)]
    simp only [PyErr.message]
    rw [string_append_reassoc]
    congr 1
  · simp only [textToImage_process, validate_input, log_operation, error_handler,
      t2iProcessBody, textToImage_load_model]
    rw [dif_pos h, if_neg (by rw [hnb]; exact Bool.false_ne_true)]
    simp only [PyErr.message]
    rw [string_append_reassoc]
    congr 1

/-- Witness for the amended C2 at a concrete failing initialisation. -/
theorem C2_witness :
    imageCaption_process (.error "offline") (.ok "a dog")
        [.obj "self", .obj "img"] =
      (.ok PyVal.none,
        ["[LOG] Starting process",
          "Loading Salesforce/blip-image-captioning-base...",
          "[ERROR] Image captioning failed: Failed to load image captioning model: offline",
          "[LOG] process completed"]) ∧
    textToImage_process (.error "offline") (.ok (.obj "img"))
        [.obj "self", .str "a red bicycle"] =
      (.ok PyVal.none,
        ["[LOG] Starting process",
          "Loading runwayml/stable-diffusion-v1-5...",
          "[ERROR] Text-to-image generation failed: Failed to load text-to-image model: offline",
          "[LOG] process completed"]) :=
  ⟨(C2_load_failure_suppressed "offline" (.ok "a dog") (.ok (.obj "img"))
      [.obj "self", .obj "img"] (by decide) (by decide)).1,
    (C2_load_failure_suppressed "offline" (.ok "a dog") (.ok (.obj "img"))
      [.obj "self", .str "a red bicycle"] (by decide) (by decide)).2⟩

/-- C6: on an adapter instance that is not yet loaded, a call of
`_ensure_loaded` whose `_load_model` returns normally invokes the load,
records the load duration and sets the loaded flag; and every call on
the resulting loaded instance — with any loader and any clock — leaves
the state (sub-state handles, loaded flag, load duration) unchanged,
raises nothing and does not invoke the load. -/
theorem C6_ensure_loaded_lazy_singleton {α : Type} (st : ModelState α)
    (loader : Loader α) (elapsed : Nat) (sub' : α)
    (hun : st.isLoaded = false)
    (hsucc : loader st.sub = (sub', Option.none)) :
    ensure_loaded st loader elapsed =
      ({ st with sub := sub', isLoaded := true, loadTime := some elapsed },
        Option.none, true) ∧
    ∀ (loader2 : Loader α) (elapsed2 : Nat),
      ensure_loaded (ensure_loaded st loader elapsed).1 loader2 elapsed2 =
        ((ensure_loaded st loader elapsed).1, Option.none, false) := by
  have hfirst : ensure_loaded st loader elapsed =
      ({ st with sub := sub', isLoaded := true, loadTime := some elapsed },
        Option.none, true) := by
    unfold ensure_loaded
    rw [if_neg (by rw [hun]; exact Bool.false_ne_true), hsucc]
  refine ⟨hfirst, fun loader2 elapsed2 => ?_⟩
  rw [hfirst]
  unfold ensure_loaded
  rw [if_pos rfl]

/-- Witness for C6 on a concrete fresh adapter with a succeeding
loader. -/
theorem C6_witness :
    ensure_loaded (BaseAIModel.init "Salesforce/blip-image-captioning-base" 0)
        (fun s => (s + 1, Option.none)) 42 =
      ({ modelName := "Salesforce/blip-image-captioning-base", sub := 1,
          isLoaded := true, loadTime := some 42 }, Option.none, true) ∧
    ∀ (loader2 : Loader Nat) (elapsed2 : Nat),
      ensure_loaded
          (ensure_loaded (BaseAIModel.init "Salesforce/blip-image-captioning-base" 0)
            (fun s => (s + 1, Option.none)) 42).1 loader2 elapsed2 =
        ((ensure_loaded (BaseAIModel.init "Salesforce/blip-image-captioning-base" 0)
            (fun s => (s + 1, Option.none)) 42).1, Option.none, false) :=
  C6_ensure_loaded_lazy_singleton (BaseAIModel.init _ 0)
    (fun s => (s + 1, Option.none)) 42 1 rfl rfl

/-- C10: the invariant "the loaded flag is set exactly when a load
duration has been recorded" holds at construction and is preserved by
`_ensure_loaded` under every loader outcome (the only code in the
repository that assigns either field); moreover, when the loader raises
on an unloaded instance, the flag stays false and — the invariant
having held before the call — the load duration stays unset. -/
theorem C10_loaded_iff_timed {α : Type} (name : String) (sub0 : α)
    (st : ModelState α) (loader : Loader α) (elapsed : Nat) :
    loadedInvariant (BaseAIModel.init name sub0) ∧
    (loadedInvariant st → loadedInvariant (ensure_loaded st loader elapsed).1) ∧
    (loadedInvariant st → st.isLoaded = false →
      ∀ sub' e, loader st.sub = (sub', some e) →
        (ensure_loaded st loader elapsed).1.isLoaded = false ∧
        (ensure_loaded st loader elapsed).1.loadTime = Option.none) := by
  refine ⟨rfl, ?_, ?_⟩
  · intro hinv
    unfold ensure_loaded
    by_cases hl : st.isLoaded
    · rw [if_pos hl]; exact hinv
    · rw [if_neg hl]
      rcases hld : loader st.sub with ⟨sub', err⟩
      rcases err with _ | e
      · simp [loadedInvariant]
      · simpa [loadedInvariant] using hinv
  · intro hinv hun sub' e hld
    have hnone : st.loadTime = Option.none := by
      rcases ht : st.loadTime with _ | t
      · rfl
      · rw [loadedInvariant, ht, hun] at hinv
        simp at hinv
    unfold ensure_loaded
    rw [if_neg (by rw [hun]; exact Bool.false_ne_true), hld]
    exact ⟨hun, hnone⟩

/-- Witness for C10 on a concrete unloaded adapter whose loader mutates
its sub-state and then raises: the flag and duration are untouched. -/
theorem C10_witness :
    loadedInvariant (BaseAIModel.init "runwayml/stable-diffusion-v1-5" 0) ∧
    (loadedInvariant (BaseAIModel.init "runwayml/stable-diffusion-v1-5" 0) →
      loadedInvariant
        (ensure_loaded (BaseAIModel.init "runwayml/stable-diffusion-v1-5" 0)
          (fun s => (s + 7, some (PyErr.runtimeError "Failed to load text-to-image model: offline")))
          9).1) ∧
    (loadedInvariant (BaseAIModel.init "runwayml/stable-diffusion-v1-5" 0) →
      (BaseAIModel.init "runwayml/stable-diffusion-v1-5" (0 : Nat)).isLoaded = false →
      ∀ sub' e,
        (fun s => (s + 7, some (PyErr.runtimeError "Failed to load text-to-image model: offline")))
            (BaseAIModel.init "runwayml/stable-diffusion-v1-5" 0).sub = (sub', some e) →
        (ensure_loaded (BaseAIModel.init "runwayml/stable-diffusion-v1-5" 0)
            (fun s => (s + 7, some (PyErr.runtimeError "Failed to load text-to-image model: offline")))
            9).1.isLoaded = false ∧
        (ensure_loaded (BaseAIModel.init "runwayml/stable-diffusion-v1-5" 0)
            (fun s => (s + 7, some (PyErr.runtimeError "Failed to load text-to-image model: offline")))
            9).1.loadTime = Option.none) :=
  C10_loaded_iff_timed "runwayml/stable-diffusion-v1-5" 0
    (BaseAIModel.init "runwayml/stable-diffusion-v1-5" 0)
    (fun s => (s + 7, some (PyErr.runtimeError "Failed to load text-to-image model: offline"))) 9

/-- C7: `load_image` raises `FileNotFoundError` when the path does not
exist; otherwise raises the unsupported-format `ValueError` when the
lowercased extension is not in the supported set; otherwise a decoder
raise is wrapped in the generic load `ValueError`, and a decoded image
is returned converted to plain three-channel `RGB` form exactly when
its mode carries an alpha or palette channel (`RGBA`, `LA` or `P`),
unchanged otherwise. -/
theorem C7_load_image_cases (p : PathModel) (decode : Except String PILImage) :
    (p.exist = false →
      load_image p decode =
        .error (.fileNotFoundError ("Image file not found: " ++ p.pathStr))) ∧
    (p.exist = true → is_valid_image_file p = false →
      load_image p decode =
        .error (.valueError ("Unsupported image format: " ++ p.suffix))) ∧
    (p.exist = true → is_valid_image_file p = true →
      ∀ msg, decode = .error msg →
        load_image p decode =
          .error (.valueError ("Failed to load image: " ++ msg))) ∧
    (p.exist = true → is_valid_image_file p = true →
      ∀ img, decode = .ok img →
        load_image p decode =
          .ok (if img.mode ∈ ["RGBA", "LA", "P"] then { mode := "RGB" } else img)) := by
  refine ⟨?_, ?_, ?_, ?_⟩
  · intro hex
    simp [load_image, hex]
  · intro hex hfmt
    simp [load_image, hex, hfmt]
  · intro hex hfmt msg hdec
    simp [load_image, hex, hfmt, hdec]
  · intro hex hfmt img hdec
    by_cases hm : img.mode ∈ ["RGBA", "LA", "P"]
    · simp [load_image, hex, hfmt, hdec, hm, PILImage.convert]
    · simp [load_image, hex, hfmt, hdec, hm]

/-- Witness for C7 on concrete paths: a missing file, an unsupported
`.gif`, a failing decode, and a palette `PNG` that is normalised to
`RGB`. -/
theorem C7_witness :
    ((PathModel.mk "/tmp/missing.png" false ".png").exist = false →
      load_image (PathModel.mk "/tmp/missing.png" false ".png") (.ok ⟨"RGB"⟩) =
        .error (.fileNotFoundError "Image file not found: /tmp/missing.png")) ∧
    ((PathModel.mk "/tmp/a.gif" true ".gif").exist = true →
      is_valid_image_file (PathModel.mk "/tmp/a.gif" true ".gif") = false →
      load_image (PathModel.mk "/tmp/a.gif" true ".gif") (.ok ⟨"RGB"⟩) =
        .error (.valueError "Unsupported image format: .gif")) ∧
    ((PathModel.mk "/tmp/a.png" true ".png").exist = true →
      is_valid_image_file (PathModel.mk "/tmp/a.png" true ".png") = true →
      ∀ msg, (Except.error "truncated" : Except String PILImage) = .error msg →
        load_image (PathModel.mk "/tmp/a.png" true ".png") (.error "truncated") =
          .error (.valueError ("Failed to load image: " ++ msg))) ∧
    ((PathModel.mk "/tmp/a.png" true ".png").exist = true →
      is_valid_image_file (PathModel.mk "/tmp/a.png" true ".png") = true →
      ∀ img, (Except.ok ⟨"P"⟩ : Except String PILImage) = .ok img →
        load_image (PathModel.mk "/tmp/a.png" true ".png") (.ok ⟨"P"⟩) =
          .ok (if img.mode ∈ ["RGBA", "LA", "P"] then { mode := "RGB" } else img)) :=
  ⟨(C7_load_image_cases (PathModel.mk "/tmp/missing.png" false ".png") (.ok ⟨"RGB"⟩)).1,
    (C7_load_image_cases (PathModel.mk "/tmp/a.gif" true ".gif") (.ok ⟨"RGB"⟩)).2.1,
    (C7_load_image_cases (PathModel.mk "/tmp/a.png" true ".png") (.error "truncated")).2.2.1,
    (C7_load_image_cases (PathModel.mk "/tmp/a.png" true ".png") (.ok ⟨"P"⟩)).2.2.2⟩

/-- C8: pressing the trigger in image-to-caption mode with no image
selected shows the invalid-input dialog ("Please select an image file"),
starts no worker thread, and leaves the trigger control enabled, since
`_process_input`'s own `try/except` catches the `ValueError` before
`_start_processing_thread` is reached. -/
theorem C8_caption_mode_no_image (st : UIState)
    (hmode : st.currentMode = "image_to_caption")
    (hsel : st.selectedImagePath = Option.none)
    (henabled : st.processButtonEnabled = true) :
    (process_input st).dialogs =
      st.dialogs ++ [("Error", "Please select an image file")] ∧
    (process_input st).threadsSpawned = st.threadsSpawned ∧
    (process_input st).processButtonEnabled = true := by
  have hpi : process_input st =
      { st with dialogs := st.dialogs ++ [("Error", "Please select an image file")] } := by
    unfold process_input
    rw [if_neg (by rw [hmode]; decide), if_pos hmode, hsel]
  rw [hpi]
  exact ⟨rfl, rfl, henabled⟩

/-- Witness for C8 on the concrete post-mode-change state: caption mode
just selected, no image chosen, trigger enabled. -/
theorem C8_witness :
    (process_input
        { currentMode := "image_to_caption", textInput := "",
          selectedImagePath := Option.none, processButtonEnabled := true,
          processButtonText := "Generate Caption", saveButtonEnabled := false,
          status := "Ready", displayedImage := Option.none, textOutput := "",
          dialogs := [], threadsSpawned := 0, phase := .idle }).dialogs =
      [] ++ [("Error", "Please select an image file")] ∧
    (process_input
        { currentMode := "image_to_caption", textInput := "",
          selectedImagePath := Option.none, processButtonEnabled := true,
          processButtonText := "Generate Caption", saveButtonEnabled := false,
          status := "Ready", displayedImage := Option.none, textOutput := "",
          dialogs := [], threadsSpawned := 0, phase := .idle }).threadsSpawned = 0 ∧
    (process_input
        { currentMode := "image_to_caption", textInput := "",
          selectedImagePath := Option.none, processButtonEnabled := true,
          processButtonText := "Generate Caption", saveButtonEnabled := false,
          status := "Ready", displayedImage := Option.none, textOutput := "",
          dialogs := [], threadsSpawned := 0, phase := .idle }).processButtonEnabled =
      true :=
  C8_caption_mode_no_image _ rfl rfl rfl

/-- C1: a request dispatched from `Idle` first enters `Running` — the
trigger control disabled, busy status shown — and, whatever terminal
outcome the worker body produces, returns to `Idle` with the trigger
control re-enabled and the status restored to `Ready`: on success the
result (image or caption) is displayed and no dialog appears, on a
raise the error dialog is shown instead. -/
theorem C1_dispatch_lifecycle (st : UIState)
    (outcome : Except String ProcResult) (hidle : st.phase = .idle) :
    (start_processing_thread st).phase = .running ∧
    (start_processing_thread st).processButtonEnabled = false ∧
    (start_processing_thread st).status = "Processing..." ∧
    (process_in_background (start_processing_thread st) outcome).phase = .idle ∧
    (process_in_background (start_processing_thread st) outcome).processButtonEnabled
      = true ∧
    (process_in_background (start_processing_thread st) outcome).status = "Ready" ∧
    (∀ r, outcome = .ok r →
      (process_in_background (start_processing_thread st) outcome).dialogs =
        st.dialogs ∧
      (∀ img prompt, r = .image img prompt →
        (process_in_background (start_processing_thread st) outcome).displayedImage =
          some img) ∧
      (∀ text, r = .caption text →
        (process_in_background (start_processing_thread st) outcome).textOutput =
          text)) ∧
    (∀ e, outcome = .error e →
      (process_in_background (start_processing_thread st) outcome).dialogs =
        st.dialogs ++ [("Error", e)]) := by
  rcases outcome with e | r
  · refine ⟨rfl, rfl, rfl, rfl, rfl, rfl, ?_, ?_⟩
    · intro r hr
      cases hr
    · intro e2 he
      injection he with he
      subst he
      exact rfl
  · rcases r with ⟨img, prompt⟩ | text
    · refine ⟨rfl, rfl, rfl, rfl, rfl, rfl, ?_, ?_⟩
      · intro r hr
        injection hr with hr
        subst hr
        refine ⟨rfl, ?_, ?_⟩
        · intro i pr hip
          cases hip
          rfl
        · intro t ht
          cases ht
      · intro e he
        cases he
    · refine ⟨rfl, rfl, rfl, rfl, rfl, rfl, ?_, ?_⟩
      · intro r hr
        injection hr with hr
        subst hr
        refine ⟨rfl, ?_, ?_⟩
        · intro i pr hip
          cases hip
        · intro t ht
          cases ht
          rfl
      · intro e he
        cases he

/-- Witness for C1 on a concrete idle state and both terminal
outcomes is taken at the successful caption outcome. -/
theorem C1_witness :
    (start_processing_thread
        { currentMode := "image_to_caption", textInput := "",
          selectedImagePath := some "/tmp/a.png", processButtonEnabled := true,
          processButtonText := "Generate Caption", saveButtonEnabled := false,
          status := "Ready", displayedImage := Option.none, textOutput := "",
          dialogs := [], threadsSpawned := 0, phase := .idle }).phase = .running ∧
    (start_processing_thread
        { currentMode := "image_to_caption", textInput := "",
          selectedImagePath := some "/tmp/a.png", processButtonEnabled := true,
          processButtonText := "Generate Caption", saveButtonEnabled := false,
          status := "Ready", displayedImage := Option.none, textOutput := "",
          dialogs := [], threadsSpawned := 0, phase := .idle }).processButtonEnabled
      = false ∧
    (start_processing_thread
        { currentMode := "image_to_caption", textInput := "",
          selectedImagePath := some "/tmp/a.png", processButtonEnabled := true,
          processButtonText := "Generate Caption", saveButtonEnabled := false,
          status := "Ready", displayedImage := Option.none, textOutput := "",
          dialogs := [], threadsSpawned := 0, phase := .idle }).status =
      "Processing..." ∧
    (process_in_background
        (start_processing_thread
          { currentMode := "image_to_caption", textInput := "",
            selectedImagePath := some "/tmp/a.png", processButtonEnabled := true,
            processButtonText := "Generate Caption", saveButtonEnabled := false,
            status := "Ready", displayedImage := Option.none, textOutput := "",
            dialogs := [], threadsSpawned := 0, phase := .idle })
        (.ok (.caption "a dog on grass"))).phase = .idle ∧
    (process_in_background
        (start_processing_thread
          { currentMode := "image_to_caption", textInput := "",
            selectedImagePath := some "/tmp/a.png", processButtonEnabled := true,
            processButtonText := "Generate Caption", saveButtonEnabled := false,
            status := "Ready", displayedImage := Option.none, textOutput := "",
            dialogs := [], threadsSpawned := 0, phase := .idle })
        (.ok (.caption "a dog on grass"))).processButtonEnabled = true ∧
    (process_in_background
        (start_processing_thread
          { currentMode := "image_to_caption", textInput := "",
            selectedImagePath := some "/tmp/a.png", processButtonEnabled := true,
            processButtonText := "Generate Caption", saveButtonEnabled := false,
            status := "Ready", displayedImage := Option.none, textOutput := "",
            dialogs := [], threadsSpawned := 0, phase := .idle })
        (.ok (.caption "a dog on grass"))).status = "Ready" := by
  obtain ⟨h1, h2, h3, h4, h5, h6, -, -⟩ :=
    C1_dispatch_lifecycle
      { currentMode := "image_to_caption", textInput := "",
        selectedImagePath := some "/tmp/a.png", processButtonEnabled := true,
        processButtonText := "Generate Caption", saveButtonEnabled := false,
        status := "Ready", displayedImage := Option.none, textOutput := "",
        dialogs := [], threadsSpawned := 0, phase := .idle }
      (.ok (.caption "a dog on grass")) rfl
  exact ⟨h1, h2, h3, h4, h5, h6⟩

end Assignment3
